import Mathlib

/-!
Shallow embedding of the PID room-heating simulation core
(`simulate_pid_room` in `src/appy.py`, lines 160-220) over the rationals,
together with theorems settling the specification claims about it.

The Python source pre-allocates four arrays `t, T, u, e` of length
`n_steps` (`np.zeros`), initializes `T[0] = T_initial`,
`e[0] = T_set - T[0]`, `integral = 0.0`, `prev_error = e[0]`, runs the
loop `for k in range(n_steps - 1)` whose body computes the error, the
integral and derivative terms, the raw and clamped control signal, the
forward-Euler plant update and the time update, and finally fills the
last samples by `e[-1] = T_set - T[-1]` and `u[-1] = u[-2]`.

The loop threads three pieces of mutable state (`T[k]`, `t[k]` via the
arrays, plus `integral` and `prev_error`); we model one loop iteration
as a function on an explicit state record and obtain the array contents
by iterating it.  Real (float) arithmetic is modelled by `ℚ`; division
is total in `ℚ` (the source's float division by a zero `dt` or `tau`
produces non-finite values, likewise without raising an exception).

The source performs no configuration validation at all: no
`InvalidConfiguration` (or any other) exception is defined or raised.
Its only runtime failure mode is the `IndexError` from the final-sample
fill `u[-1] = u[-2]` (and from `T[0] = T_initial`) when `n_steps < 2`,
which we model with an `Except` result.
-/

namespace PIDRoom

/-- The ten arguments of `simulate_pid_room` (the spec's
`SimulationConfig`): ambient, target and initial temperatures, plant
time constant `tau`, heater gain `k_heat`, PID gains, time step `dt`
and sample count `n_steps`. -/
structure SimulationConfig where
  T_ambient : ℚ
  T_set : ℚ
  T_initial : ℚ
  tau : ℚ
  k_heat : ℚ
  Kp : ℚ
  Ki : ℚ
  Kd : ℚ
  dt : ℚ
  n_steps : ℕ
deriving DecidableEq

/-- `np.clip(x, lo, hi)` for `lo ≤ hi`: clamp `x` into `[lo, hi]`. -/
def clamp (x lo hi : ℚ) : ℚ := max lo (min x hi)

/-- The state threaded through the simulation loop: the current array
entries `t[k]` and `T[k]` together with the controller accumulators
`integral` and `prev_error`. -/
structure SimState where
  t : ℚ
  T : ℚ
  integral : ℚ
  prevError : ℚ
deriving DecidableEq

/-- State before the first loop iteration: `t[0] = 0` and the other
array entries from `np.zeros`, `T[0] = T_initial`, `integral = 0.0`,
`prev_error = e[0] = T_set - T[0]`. -/
def initState (c : SimulationConfig) : SimState :=
  { t := 0, T := c.T_initial, integral := 0, prevError := c.T_set - c.T_initial }

/-- One iteration of the loop body (`for k in range(n_steps - 1)`),
returning `(u_raw, u[k], next state)`:

    error = T_set - T[k]            (also recorded as e[k])
    integral += error * dt
    derivative = (error - prev_error) / dt
    u_raw = Kp*error + Ki*integral + Kd*derivative
    u[k] = np.clip(u_raw, 0.0, 100.0)
    dTdt = -(T[k] - T_ambient) / tau + k_heat * (u[k] / 100.0)
    T[k+1] = T[k] + dTdt * dt
    t[k+1] = t[k] + dt
    prev_error = error
-/
def pidPlantStep (c : SimulationConfig) (s : SimState) : ℚ × ℚ × SimState :=
  let error := c.T_set - s.T
  let integral := s.integral + error * c.dt
  let derivative := (error - s.prevError) / c.dt
  let u_raw := c.Kp * error + c.Ki * integral + c.Kd * derivative
  let u := clamp u_raw 0 100
  let dTdt := -(s.T - c.T_ambient) / c.tau + c.k_heat * (u / 100)
  (u_raw, u,
    { t := s.t + c.dt
      T := s.T + dTdt * c.dt
      integral := integral
      prevError := error })

/-- The loop state after `k` iterations of the body; its `t` and `T`
fields are the array entries `t[k]` and `T[k]`. -/
def loopState (c : SimulationConfig) : ℕ → SimState
  | 0 => initState c
  | k + 1 => (pidPlantStep c (loopState c k)).2.2

/-- The raw (pre-saturation) controller output computed at loop
iteration `k`. -/
def loopURaw (c : SimulationConfig) (k : ℕ) : ℚ :=
  (pidPlantStep c (loopState c k)).1

/-- The clamped control signal recorded as `u[k]` at loop iteration
`k` (for `k ≤ n_steps - 2`). -/
def loopU (c : SimulationConfig) (k : ℕ) : ℚ :=
  (pidPlantStep c (loopState c k)).2.1

/-- The error `T_set - T[k]` recorded as `e[k]` at loop iteration `k`. -/
def loopError (c : SimulationConfig) (k : ℕ) : ℚ :=
  c.T_set - (loopState c k).T

/-- Contents of the array `t` after the function body: the loop fills
`t[k+1] = t[k] + dt` for `k ≤ n_steps - 2`. -/
def tList (c : SimulationConfig) : List ℚ :=
  (List.range c.n_steps).map fun k => (loopState c k).t

/-- Contents of the array `T` after the function body: `T[0] =
T_initial` and the loop fills `T[k+1]` for `k ≤ n_steps - 2`. -/
def TList (c : SimulationConfig) : List ℚ :=
  (List.range c.n_steps).map fun k => (loopState c k).T

/-- Contents of the array `u` after the function body: the loop fills
`u[k]` for `k ≤ n_steps - 2`, and the final fill repeats the previous
control value, `u[-1] = u[-2]`. -/
def uList (c : SimulationConfig) : List ℚ :=
  (List.range (c.n_steps - 1)).map (loopU c) ++ [loopU c (c.n_steps - 2)]

/-- Contents of the array `e` after the function body: the loop fills
`e[k]` for `k ≤ n_steps - 2`, and the final fill recomputes the error
from the final temperature, `e[-1] = T_set - T[-1]`. -/
def eList (c : SimulationConfig) : List ℚ :=
  (List.range (c.n_steps - 1)).map (loopError c) ++
    [c.T_set - (loopState c (c.n_steps - 1)).T]

/-- The one runtime failure mode of `simulate_pid_room`: the
out-of-bounds array access (`u[-2]`, or `T[0]` on an empty array)
raised when `n_steps < 2`.  The source defines no exception type of its
own; in particular no `InvalidConfiguration` exists anywhere in it. -/
inductive SimError where
  | indexError
deriving DecidableEq

/-- The simulation driver `simulate_pid_room`: given a configuration it
returns the four arrays `(t, T, u, e)`.  It performs no validation of
`dt`, `tau`, `k_heat` or `n_steps`; the only failure is the index error
of the final-sample fill (after the loop) when `n_steps < 2`. -/
def simulate_pid_room (c : SimulationConfig) :
    Except SimError (List ℚ × List ℚ × List ℚ × List ℚ) :=
  if c.n_steps < 2 then Except.error SimError.indexError
  else Except.ok (tList c, TList c, uList c, eList c)

/-- The spec's validity condition on a configuration:
`dt > 0`, `tau > 0`, `k_heat > 0`, `n_steps ≥ 2`. -/
def ValidConfig (c : SimulationConfig) : Prop :=
  0 < c.dt ∧ 0 < c.tau ∧ 0 < c.k_heat ∧ 2 ≤ c.n_steps

instance (c : SimulationConfig) : Decidable (ValidConfig c) := by
  unfold ValidConfig; infer_instance

/-- A small concrete valid configuration used to witness the
hypotheses of the per-configuration theorems. -/
def cW : SimulationConfig :=
  { T_ambient := 20, T_set := 22, T_initial := 18, tau := 60,
    k_heat := 1/2, Kp := 3/2, Ki := 1/10, Kd := 0, dt := 1, n_steps := 3 }

/-- A configuration with `dt = 0` (otherwise well-formed): the source
runs it without raising anything. -/
def cDtZero : SimulationConfig :=
  { T_ambient := 20, T_set := 22, T_initial := 18, tau := 60,
    k_heat := 1/2, Kp := 3/2, Ki := 1/10, Kd := 0, dt := 0, n_steps := 3 }

/-- A configuration with `n_steps = 1`: the source fails with an index
error at the final-sample fill, after the loop. -/
def cOneStep : SimulationConfig :=
  { T_ambient := 20, T_set := 22, T_initial := 18, tau := 60,
    k_heat := 1/2, Kp := 3/2, Ki := 1/10, Kd := 0, dt := 1, n_steps := 1 }

/-- The pure-P scenario of the spec: `Kp = 1.5`, `Ki = Kd = 0`,
`T_ambient = 20`, `T_set = 22`, `T_initial = 18`, `tau = 60`,
`k_heat = 0.5`, `dt = 1`, `n_steps = 301`. -/
def c8 : SimulationConfig :=
  { T_ambient := 20, T_set := 22, T_initial := 18, tau := 60,
    k_heat := 1/2, Kp := 3/2, Ki := 0, Kd := 0, dt := 1, n_steps := 301 }

/-! ### Unfolding lemmas for one loop iteration -/

theorem pidPlantStep_uRaw (c : SimulationConfig) (s : SimState) :
    (pidPlantStep c s).1 =
      c.Kp * (c.T_set - s.T) + c.Ki * (s.integral + (c.T_set - s.T) * c.dt) +
        c.Kd * ((c.T_set - s.T - s.prevError) / c.dt) := rfl

theorem pidPlantStep_u (c : SimulationConfig) (s : SimState) :
    (pidPlantStep c s).2.1 = clamp (pidPlantStep c s).1 0 100 := rfl

theorem pidPlantStep_t (c : SimulationConfig) (s : SimState) :
    ((pidPlantStep c s).2.2).t = s.t + c.dt := rfl

theorem pidPlantStep_T (c : SimulationConfig) (s : SimState) :
    ((pidPlantStep c s).2.2).T =
      s.T + (-(s.T - c.T_ambient) / c.tau +
        c.k_heat * ((pidPlantStep c s).2.1 / 100)) * c.dt := rfl

theorem pidPlantStep_integral (c : SimulationConfig) (s : SimState) :
    ((pidPlantStep c s).2.2).integral = s.integral + (c.T_set - s.T) * c.dt := rfl

theorem pidPlantStep_prevError (c : SimulationConfig) (s : SimState) :
    ((pidPlantStep c s).2.2).prevError = c.T_set - s.T := rfl

theorem loopState_succ (c : SimulationConfig) (k : ℕ) :
    loopState c (k + 1) = (pidPlantStep c (loopState c k)).2.2 := rfl

theorem loopState_zero (c : SimulationConfig) : loopState c 0 = initState c := rfl

/-! ### Clamp lemmas -/

theorem clamp_lower (x : ℚ) : 0 ≤ clamp x 0 100 := le_max_left _ _

theorem clamp_upper (x : ℚ) : clamp x 0 100 ≤ 100 :=
  max_le (by norm_num) (min_le_right _ _)

theorem clamp_eq_of (x lo hi : ℚ) (h1 : lo ≤ x) (h2 : x ≤ hi) :
    clamp x lo hi = x := by
  unfold clamp
  rw [min_eq_left h2, max_eq_right h1]

/-! ### Access lemmas for the returned arrays -/

theorem tList_length (c : SimulationConfig) : (tList c).length = c.n_steps := by
  simp [tList]

theorem TList_length (c : SimulationConfig) : (TList c).length = c.n_steps := by
  simp [TList]

theorem uList_length (c : SimulationConfig) (h : 1 ≤ c.n_steps) :
    (uList c).length = c.n_steps := by
  simp [uList]
  omega

theorem eList_length (c : SimulationConfig) (h : 1 ≤ c.n_steps) :
    (eList c).length = c.n_steps := by
  simp [eList]
  omega

theorem tList_get? (c : SimulationConfig) {k : ℕ} (h : k < c.n_steps) :
    (tList c)[k]? = some ((loopState c k).t) := by
  simp [tList, List.getElem?_map, List.getElem?_range, h]

theorem TList_get? (c : SimulationConfig) {k : ℕ} (h : k < c.n_steps) :
    (TList c)[k]? = some ((loopState c k).T) := by
  simp [TList, List.getElem?_map, List.getElem?_range, h]

theorem uList_get?_lt (c : SimulationConfig) {k : ℕ} (h : k < c.n_steps - 1) :
    (uList c)[k]? = some (loopU c k) := by
  have hlen : k < ((List.range (c.n_steps - 1)).map (loopU c)).length := by
    simpa using h
  simp [uList, List.getElem?_append, hlen, List.getElem?_map, List.getElem?_range, h]

theorem getElem?_append_singleton {α : Type} (l : List α) (a : α) {n : ℕ}
    (h : n = l.length) : (l ++ [a])[n]? = some a := by
  subst h
  simp [List.getElem?_concat_length]

theorem uList_get?_last (c : SimulationConfig) :
    (uList c)[c.n_steps - 1]? = some (loopU c (c.n_steps - 2)) := by
  unfold uList
  exact getElem?_append_singleton _ _ (by simp)

theorem eList_get?_lt (c : SimulationConfig) {k : ℕ} (h : k < c.n_steps - 1) :
    (eList c)[k]? = some (loopError c k) := by
  have hlen : k < ((List.range (c.n_steps - 1)).map (loopError c)).length := by
    simpa using h
  simp [eList, List.getElem?_append, hlen, List.getElem?_map, List.getElem?_range, h]

theorem eList_get?_last (c : SimulationConfig) :
    (eList c)[c.n_steps - 1]? = some (c.T_set - (loopState c (c.n_steps - 1)).T) := by
  unfold eList
  exact getElem?_append_singleton _ _ (by simp)

theorem simulate_ok (c : SimulationConfig) (h : 2 ≤ c.n_steps) :
    simulate_pid_room c = Except.ok (tList c, TList c, uList c, eList c) := by
  unfold simulate_pid_room
  rw [if_neg (by omega)]

/-- The accumulator after loop iteration `k` is the full running sum of
all recorded errors times `dt`, with no dependence on whether any raw
control output left `[0, 100]`. -/
theorem integral_closed_form (c : SimulationConfig) (k : ℕ) :
    (loopState c (k + 1)).integral =
      (∑ j ∈ Finset.range (k + 1), loopError c j) * c.dt := by
  induction k with
  | zero =>
    rw [loopState_succ, pidPlantStep_integral, Finset.sum_range_one]
    simp [loopState_zero, initState, loopError]
  | succ k ih =>
    rw [Finset.sum_range_succ, add_mul, ← ih]
    rfl

/-! ### Claim theorems -/

/-- C1 (amended): `simulate_pid_room` performs no configuration
validation and never raises an `InvalidConfiguration` (no such
exception exists in the source): it succeeds exactly when
`n_steps ≥ 2`, running configurations with `dt ≤ 0`, `tau ≤ 0` or
`k_heat ≤ 0` to completion, and for `n_steps < 2` the failure is the
index error of the final-sample fill, not an `InvalidConfiguration`
detected before the loop. -/
theorem no_validation (c : SimulationConfig) :
    ((simulate_pid_room c).isOk = true ↔ 2 ≤ c.n_steps) ∧
    (simulate_pid_room c = Except.error SimError.indexError ↔ c.n_steps < 2) := by
  by_cases h : c.n_steps < 2
  · have he : simulate_pid_room c = Except.error SimError.indexError := by
      unfold simulate_pid_room
      rw [if_pos h]
    constructor
    · constructor
      · intro hc
        rw [he] at hc
        exact absurd hc (by simp [Except.isOk, Except.toBool])
      · intro hc
        exact absurd hc (by omega)
    · exact ⟨fun _ => h, fun _ => he⟩
  · have he : simulate_pid_room c =
        Except.ok (tList c, TList c, uList c, eList c) := by
      unfold simulate_pid_room
      rw [if_neg h]
    constructor
    · constructor
      · intro _
        omega
      · intro _
        rw [he]
        rfl
    · constructor
      · intro hc
        rw [he] at hc
        exact absurd hc (by simp)
      · intro hc
        exact absurd hc h

/-- C1 (counterexample): with `dt = 0` — an invalid configuration — the
driver raises nothing and returns a trace, and with `n_steps = 1` it
fails with the index error of the final fill; in neither case is an
`InvalidConfiguration` raised before entering the loop. -/
theorem no_validation_cex :
    (simulate_pid_room cDtZero).isOk = true ∧
    simulate_pid_room cOneStep = Except.error SimError.indexError :=
  ⟨rfl, rfl⟩

/-- C2: for every valid configuration the final sample is filled
asymmetrically: `u[n_steps-1]` repeats `u[n_steps-2]`, while
`e[n_steps-1]` is recomputed as `T_set - T[n_steps-1]`, both exactly. -/
theorem fill_policy (c : SimulationConfig) (hv : ValidConfig c) :
    simulate_pid_room c = Except.ok (tList c, TList c, uList c, eList c) ∧
    (uList c)[c.n_steps - 1]? = (uList c)[c.n_steps - 2]? ∧
    ∃ Tlast, (TList c)[c.n_steps - 1]? = some Tlast ∧
      (eList c)[c.n_steps - 1]? = some (c.T_set - Tlast) := by
  obtain ⟨-, -, -, hn⟩ := hv
  refine ⟨simulate_ok c hn, ?_, (loopState c (c.n_steps - 1)).T,
    TList_get? c (by omega), eList_get?_last c⟩
  rw [uList_get?_last c, uList_get?_lt c (by omega)]

/-- Witness for C2 at the concrete valid configuration `cW`. -/
theorem fill_policy_witness :
    ValidConfig cW ∧
    (simulate_pid_room cW = Except.ok (tList cW, TList cW, uList cW, eList cW) ∧
      (uList cW)[cW.n_steps - 1]? = (uList cW)[cW.n_steps - 2]? ∧
      ∃ Tlast, (TList cW)[cW.n_steps - 1]? = some Tlast ∧
        (eList cW)[cW.n_steps - 1]? = some (cW.T_set - Tlast)) :=
  ⟨by norm_num [ValidConfig, cW], fill_policy cW (by norm_num [ValidConfig, cW])⟩

/-- C3: at every loop step `k ≤ n_steps - 2` the controller updates the
accumulator by `error * dt`, computes the derivative from the previous
error, forms `u_raw = Kp*error + Ki*integral + Kd*derivative`, then
records the error as the next previous error; the accumulator always
integrates the raw error — it equals the full sum of recorded errors
times `dt`, unaffected by output saturation (integral windup). -/
theorem controller_step (c : SimulationConfig) (_hv : ValidConfig c) (k : ℕ)
    (_hk : k ≤ c.n_steps - 2) :
    (loopState c (k + 1)).integral =
        (loopState c k).integral + loopError c k * c.dt ∧
    (loopState c (k + 1)).prevError = loopError c k ∧
    loopURaw c k =
        c.Kp * loopError c k + c.Ki * (loopState c (k + 1)).integral +
          c.Kd * ((loopError c k - (loopState c k).prevError) / c.dt) ∧
    loopU c k = clamp (loopURaw c k) 0 100 ∧
    (loopState c (k + 1)).integral =
        (∑ j ∈ Finset.range (k + 1), loopError c j) * c.dt :=
  ⟨rfl, rfl, rfl, rfl, integral_closed_form c k⟩

/-- Witness for C3 at the concrete valid configuration `cW`, step 0. -/
theorem controller_step_witness :
    ValidConfig cW ∧ 0 ≤ cW.n_steps - 2 ∧
    ((loopState cW (0 + 1)).integral =
        (loopState cW 0).integral + loopError cW 0 * cW.dt ∧
      (loopState cW (0 + 1)).prevError = loopError cW 0 ∧
      loopURaw cW 0 =
          cW.Kp * loopError cW 0 + cW.Ki * (loopState cW (0 + 1)).integral +
            cW.Kd * ((loopError cW 0 - (loopState cW 0).prevError) / cW.dt) ∧
      loopU cW 0 = clamp (loopURaw cW 0) 0 100 ∧
      (loopState cW (0 + 1)).integral =
          (∑ j ∈ Finset.range (0 + 1), loopError cW j) * cW.dt) :=
  ⟨by norm_num [ValidConfig, cW], by decide,
    controller_step cW (by norm_num [ValidConfig, cW]) 0 (by decide)⟩

/-- C4: at every loop step `k ≤ n_steps - 2` the plant update is the
pure forward-Euler step
`T[k+1] = T[k] + (-(T[k] - T_ambient)/tau + k_heat*(u[k]/100)) * dt`
driven by the recorded (saturated) control value `u[k]`, with no
physical clamp applied to `T[k+1]`. -/
theorem plant_update (c : SimulationConfig) (hv : ValidConfig c) (k : ℕ)
    (hk : k ≤ c.n_steps - 2) :
    ∃ u_k, (uList c)[k]? = some u_k ∧ u_k = loopU c k ∧
      (loopState c (k + 1)).T =
        (loopState c k).T +
          (-((loopState c k).T - c.T_ambient) / c.tau +
            c.k_heat * (u_k / 100)) * c.dt ∧
      (TList c)[k + 1]? = some ((loopState c (k + 1)).T) := by
  obtain ⟨-, -, -, hn⟩ := hv
  exact ⟨loopU c k, uList_get?_lt c (by omega), rfl, rfl, TList_get? c (by omega)⟩

/-- Witness for C4 at the concrete valid configuration `cW`, step 0. -/
theorem plant_update_witness :
    ValidConfig cW ∧ 0 ≤ cW.n_steps - 2 ∧
    (∃ u_k, (uList cW)[0]? = some u_k ∧ u_k = loopU cW 0 ∧
      (loopState cW (0 + 1)).T =
        (loopState cW 0).T +
          (-((loopState cW 0).T - cW.T_ambient) / cW.tau +
            cW.k_heat * (u_k / 100)) * cW.dt ∧
      (TList cW)[0 + 1]? = some ((loopState cW (0 + 1)).T)) :=
  ⟨by norm_num [ValidConfig, cW], by decide,
    plant_update cW (by norm_num [ValidConfig, cW]) 0 (by decide)⟩

/-- C5: for every valid configuration and every `k < n_steps - 1`, the
recorded control value is the clamp of the raw controller output into
`[0, 100]`, hence `0 ≤ u[k] ≤ 100`. -/
theorem saturation_invariant (c : SimulationConfig) (_hv : ValidConfig c) (k : ℕ)
    (hk : k < c.n_steps - 1) :
    ∃ v, (uList c)[k]? = some v ∧ v = clamp (loopURaw c k) 0 100 ∧
      0 ≤ v ∧ v ≤ 100 :=
  ⟨loopU c k, uList_get?_lt c hk, rfl, clamp_lower _, clamp_upper _⟩

/-- Witness for C5 at the concrete valid configuration `cW`, index 0. -/
theorem saturation_invariant_witness :
    ValidConfig cW ∧ 0 < cW.n_steps - 1 ∧
    (∃ v, (uList cW)[0]? = some v ∧ v = clamp (loopURaw cW 0) 0 100 ∧
      0 ≤ v ∧ v ≤ 100) :=
  ⟨by norm_num [ValidConfig, cW], by decide,
    saturation_invariant cW (by norm_num [ValidConfig, cW]) 0 (by decide)⟩

/-- C6: for every valid configuration the driver returns four sequences
`t, T, u, e` of length exactly `n_steps`, with `t[0] = 0` and
`T[0] = T_initial`. -/
theorem trace_shape (c : SimulationConfig) (hv : ValidConfig c) :
    simulate_pid_room c = Except.ok (tList c, TList c, uList c, eList c) ∧
    (tList c).length = c.n_steps ∧ (TList c).length = c.n_steps ∧
    (uList c).length = c.n_steps ∧ (eList c).length = c.n_steps ∧
    (tList c)[0]? = some 0 ∧ (TList c)[0]? = some c.T_initial := by
  obtain ⟨-, -, -, hn⟩ := hv
  refine ⟨simulate_ok c hn, tList_length c, TList_length c,
    uList_length c (by omega), eList_length c (by omega), ?_, ?_⟩
  · rw [tList_get? c (by omega)]; rfl
  · rw [TList_get? c (by omega)]; rfl

/-- Witness for C6 at the concrete valid configuration `cW`. -/
theorem trace_shape_witness :
    ValidConfig cW ∧
    (simulate_pid_room cW = Except.ok (tList cW, TList cW, uList cW, eList cW) ∧
      (tList cW).length = cW.n_steps ∧ (TList cW).length = cW.n_steps ∧
      (uList cW).length = cW.n_steps ∧ (eList cW).length = cW.n_steps ∧
      (tList cW)[0]? = some 0 ∧ (TList cW)[0]? = some cW.T_initial) :=
  ⟨by norm_num [ValidConfig, cW], trace_shape cW (by norm_num [ValidConfig, cW])⟩

/-- C7: for every valid configuration the time grid is uniform:
consecutive samples of `t` differ by exactly `dt`. -/
theorem time_grid (c : SimulationConfig) (_hv : ValidConfig c) (k : ℕ)
    (hk : k + 1 < c.n_steps) :
    ∃ a b, (tList c)[k]? = some a ∧ (tList c)[k + 1]? = some b ∧ b - a = c.dt := by
  refine ⟨(loopState c k).t, (loopState c (k + 1)).t,
    tList_get? c (by omega), tList_get? c hk, ?_⟩
  rw [loopState_succ, pidPlantStep_t]
  ring

/-- Witness for C7 at the concrete valid configuration `cW`, index 0. -/
theorem time_grid_witness :
    ValidConfig cW ∧ 0 + 1 < cW.n_steps ∧
    (∃ a b, (tList cW)[0]? = some a ∧ (tList cW)[0 + 1]? = some b ∧
      b - a = cW.dt) :=
  ⟨by norm_num [ValidConfig, cW], by decide,
    time_grid cW (by norm_num [ValidConfig, cW]) 0 (by decide)⟩

/-- C9: the simulation is a pure deterministic function of its
configuration — two invocations of the driver on the same valid
configuration yield identical results. -/
theorem determinism (c : SimulationConfig) (_hv : ValidConfig c)
    (r₁ r₂ : Except SimError (List ℚ × List ℚ × List ℚ × List ℚ))
    (h₁ : simulate_pid_room c = r₁) (h₂ : simulate_pid_room c = r₂) :
    r₁ = r₂ :=
  h₁.symm.trans h₂

/-- Witness for C9 at the concrete valid configuration `cW`. -/
theorem determinism_witness :
    ValidConfig cW ∧ simulate_pid_room cW = simulate_pid_room cW :=
  ⟨by norm_num [ValidConfig, cW],
    determinism cW (by norm_num [ValidConfig, cW]) _ _ rfl rfl⟩

/-- C10: for every valid configuration the final control sample also
lies in `[0, 100]`, because it repeats the already-clamped value
`u[n_steps-2]`. -/
theorem saturation_last (c : SimulationConfig) (_hv : ValidConfig c) :
    ∃ v, (uList c)[c.n_steps - 1]? = some v ∧ 0 ≤ v ∧ v ≤ 100 :=
  ⟨loopU c (c.n_steps - 2), uList_get?_last c, clamp_lower _, clamp_upper _⟩

/-- Witness for C10 at the concrete valid configuration `cW`. -/
theorem saturation_last_witness :
    ValidConfig cW ∧
    (∃ v, (uList cW)[cW.n_steps - 1]? = some v ∧ 0 ≤ v ∧ v ≤ 100) :=
  ⟨by norm_num [ValidConfig, cW],
    saturation_last cW (by norm_num [ValidConfig, cW])⟩

/-! ### The pure-P scenario

With `Kp = 3/2`, `Ki = Kd = 0` the integral and derivative terms vanish,
and as long as `18 ≤ T ≤ 22` the raw control `3/2 * (22 - T)` lies inside
`[0, 100]`, so the clamp is inactive and one step is the affine map
`T ↦ (1171/1200) * T + 299/600` with fixed point `598/29 ≈ 20.62`. -/

theorem c8_u (s : SimState) (h1 : 18 ≤ s.T) (h2 : s.T ≤ 22) :
    (pidPlantStep c8 s).2.1 = 3/2 * (22 - s.T) := by
  have hraw : (pidPlantStep c8 s).1 = 3/2 * (22 - s.T) := by
    rw [pidPlantStep_uRaw]
    norm_num [c8]
  rw [pidPlantStep_u, hraw]
  exact clamp_eq_of _ _ _ (by linarith) (by linarith)

theorem c8_T_step (s : SimState) (h1 : 18 ≤ s.T) (h2 : s.T ≤ 22) :
    ((pidPlantStep c8 s).2.2).T = (1171 : ℚ)/1200 * s.T + 299/600 := by
  rw [pidPlantStep_T, c8_u s h1 h2]
  simp only [c8]
  ring

theorem c8_invariant (k : ℕ) :
    18 ≤ (loopState c8 k).T ∧ (loopState c8 k).T < 598/29 := by
  induction k with
  | zero =>
    constructor <;> norm_num [loopState_zero, initState, c8]
  | succ k ih =>
    obtain ⟨ih1, ih2⟩ := ih
    have hT : (loopState c8 (k + 1)).T =
        (1171 : ℚ)/1200 * (loopState c8 k).T + 299/600 := by
      rw [loopState_succ]
      exact c8_T_step _ ih1 (by linarith [show (598:ℚ)/29 < 22 by norm_num])
    constructor
    · rw [hT]; linarith
    · rw [hT]; linarith

theorem c8_mono (k : ℕ) : (loopState c8 k).T < (loopState c8 (k + 1)).T := by
  obtain ⟨h1, h2⟩ := c8_invariant k
  have hT : (loopState c8 (k + 1)).T =
      (1171 : ℚ)/1200 * (loopState c8 k).T + 299/600 := by
    rw [loopState_succ]
    exact c8_T_step _ h1 (by linarith [show (598:ℚ)/29 < 22 by norm_num])
  rw [hT]
  linarith

theorem c8_gap (k : ℕ) :
    (598 : ℚ)/29 - (loopState c8 k).T = ((1171:ℚ)/1200)^k * (76/29) := by
  induction k with
  | zero =>
    norm_num [loopState_zero, initState, c8]
  | succ k ih =>
    obtain ⟨h1, h2⟩ := c8_invariant k
    have hT : (loopState c8 (k + 1)).T =
        (1171 : ℚ)/1200 * (loopState c8 k).T + 299/600 := by
      rw [loopState_succ]
      exact c8_T_step _ h1 (by linarith [show (598:ℚ)/29 < 22 by norm_num])
    rw [hT, pow_succ]
    linarith [ih]

set_option exponentiation.threshold 310 in
theorem c8_pow_bound : ((1171:ℚ)/1200)^300 ≤ 7/152 := by
  have hnat : (1171:ℕ)^300 * 152 ≤ 7 * 1200^300 := by decide
  have hq : (1171:ℚ)^300 * 152 ≤ 7 * 1200^300 := by exact_mod_cast hnat
  rw [div_pow, div_le_div_iff₀ (by positivity) (by norm_num)]
  linarith

theorem c8_strictMonoT : StrictMono fun k => (loopState c8 k).T :=
  strictMono_nat_of_lt_succ c8_mono

/-- C8: in the pure-P scenario (`Kp = 1.5`, `Ki = Kd = 0`,
`T_ambient = 20`, `T_set = 22`, `T_initial = 18`, `tau = 60`,
`k_heat = 0.5`, `dt = 1`, `n_steps = 301`) the temperature rises
strictly monotonically, stays below the asymptote `598/29 < T_set`,
and the final sample satisfies `20.5 ≤ T[300] ≤ 22` with
`T[300] > T[0]`. -/
theorem pure_p_scenario :
    (∀ k, k < 300 → (loopState c8 k).T < (loopState c8 (k + 1)).T) ∧
    (∀ k, k ≤ 300 → (loopState c8 k).T < 598/29) ∧ (598 : ℚ)/29 < c8.T_set ∧
    (∃ v v0, (TList c8)[300]? = some v ∧ (TList c8)[0]? = some v0 ∧
      41/2 ≤ v ∧ v ≤ 22 ∧ v0 < v) := by
  refine ⟨fun k _ => c8_mono k, fun k _ => (c8_invariant k).2, by norm_num [c8],
    (loopState c8 300).T, (loopState c8 0).T,
    TList_get? c8 (by norm_num [c8]), TList_get? c8 (by norm_num [c8]),
    ?_, ?_, ?_⟩
  · have hg := c8_gap 300
    have hmul : ((1171:ℚ)/1200)^300 * (76/29) ≤ 7/152 * (76/29) :=
      mul_le_mul_of_nonneg_right c8_pow_bound (by norm_num)
    linarith
  · have := (c8_invariant 300).2
    linarith [show (598:ℚ)/29 < 22 by norm_num]
  · exact c8_strictMonoT (by norm_num : (0:ℕ) < 300)

/-- Witness for C8: the monotone-rise conjunct applied at step 0. -/
theorem pure_p_scenario_witness :
    (0:ℕ) < 300 ∧ (loopState c8 0).T < (loopState c8 (0 + 1)).T :=
  ⟨by norm_num, pure_p_scenario.1 0 (by norm_num)⟩

end PIDRoom
